import Mathlib

/-!
Verification development for the historical date normalization and period
classification engine of the DisperseArt information-visualization
repository. The authoritative source is
`src/data_stolen/5_add_category_period.py`: the functions
`normalize_cyrillic_to_latin`, `extract_year_from_date` and
`assign_period_category` together with the static `HISTORICAL_PERIODS`
table. The Python code drives an ordered cascade of regular-expression
recognizers; here each recognizer is embedded as an executable Lean
function over `List Char`, built on a small backtracking pattern matcher
that reproduces the semantics the Python `re` module applies to these
patterns: leftmost match, alternatives tried in written order, greedy
quantifiers preferring longer matches, lazy quantifiers preferring
shorter ones. Years are modelled as rationals; the Python code mixes
ints and floats, but every arithmetic step it performs (sums of ints and
halving or quartering of int sums) is exact in binary floating point, so
the rational model agrees with the Python values.
-/

set_option maxHeartbeats 4000000

/-! ## Pattern syntax

Shallow syntax for exactly the regular-expression constructs used by the
Python source: single-character classes, concatenation, ordered
alternation, optional groups, greedy star/plus over a character class,
lazy star over a character class, bounded greedy repetition over a
character class, numbered capture groups, the word boundary assertion,
negative lookahead, and the end-of-string anchor. -/

inductive RE where
  | eps : RE
  | cls (p : Char → Bool) : RE
  | cat (a b : RE) : RE
  | alt (a b : RE) : RE
  | opt (a : RE) : RE
  | starC (p : Char → Bool) : RE
  | plusC (p : Char → Bool) : RE
  | lazyStarC (p : Char → Bool) : RE
  | repC (p : Char → Bool) (lo hi : Nat) : RE
  | grp (i : Nat) (a : RE) : RE
  | wordB : RE
  | nla (a : RE) : RE
  | eos : RE

/-- Captured groups: group number paired with the captured characters.
Lookups take the most recently stored binding, matching the way the
Python engine reports the final value of a group. -/
def Caps := List (Nat × List Char)

/-- Continuations receive the remaining input, the previously consumed
character (needed by the word-boundary assertion) and the captures so
far. -/
def MatchK := List Char → Option Char → Caps → Option Caps

/-- Word characters for the `\b` assertion: ASCII alphanumerics, the
underscore, and the Cyrillic block (Python treats Cyrillic letters as
word characters in unicode mode). -/
def isWordChar (c : Char) : Bool :=
  c.isAlphanum || c = '_' || (0x400 ≤ c.toNat && c.toNat ≤ 0x4FF)

/-- Word-character test lifted to the optional previous character; at
the start of the string there is no previous character. -/
def wordO : Option Char → Bool
  | none => false
  | some c => isWordChar c

/-- Word-character test for the head of the remaining input; the end of
the string counts as a non-word position. -/
def wordHead : List Char → Bool
  | [] => false
  | c :: _ => isWordChar c

/-- Greedy `p*`: consume as many `p`-characters as possible, backing off
one at a time while the continuation fails. -/
def starGreedy (p : Char → Bool) : List Char → Option Char → Caps → MatchK → Option Caps
  | [], pr, cp, k => k [] pr cp
  | c :: rest, pr, cp, k =>
    if p c then
      match starGreedy p rest (some c) cp k with
      | some r => some r
      | none => k (c :: rest) pr cp
    else k (c :: rest) pr cp

/-- Lazy `p*?`: try the continuation first, consuming a `p`-character
only when the continuation fails. -/
def starLazy (p : Char → Bool) : List Char → Option Char → Caps → MatchK → Option Caps
  | [], pr, cp, k => k [] pr cp
  | c :: rest, pr, cp, k =>
    match k (c :: rest) pr cp with
    | some r => some r
    | none => if p c then starLazy p rest (some c) cp k else none

/-- Greedy `p{lo,hi}`: consume up to `hi` `p`-characters, preferring
more, and require at least `lo` of them. -/
def repGreedy (p : Char → Bool) : Nat → Nat → List Char → Option Char → Caps → MatchK → Option Caps
  | lo, 0, s, pr, cp, k => if lo = 0 then k s pr cp else none
  | lo, _ + 1, [], pr, cp, k => if lo = 0 then k [] pr cp else none
  | lo, hi + 1, c :: rest, pr, cp, k =>
    if p c then
      match repGreedy p (lo - 1) hi rest (some c) cp k with
      | some r => some r
      | none => if lo = 0 then k (c :: rest) pr cp else none
    else if lo = 0 then k (c :: rest) pr cp else none

/-- Backtracking matcher in continuation-passing style. Alternatives are
tried left to right and greedy quantifiers longest-first, reproducing
the preference order of the Python `re` engine on these patterns. -/
def mmatch : RE → List Char → Option Char → Caps → MatchK → Option Caps
  | .eps, s, pr, cp, k => k s pr cp
  | .cls p, s, _pr, cp, k =>
    match s with
    | [] => none
    | c :: rest => if p c then k rest (some c) cp else none
  | .cat a b, s, pr, cp, k => mmatch a s pr cp (fun s2 pr2 cp2 => mmatch b s2 pr2 cp2 k)
  | .alt a b, s, pr, cp, k =>
    match mmatch a s pr cp k with
    | some r => some r
    | none => mmatch b s pr cp k
  | .opt a, s, pr, cp, k =>
    match mmatch a s pr cp k with
    | some r => some r
    | none => k s pr cp
  | .starC p, s, pr, cp, k => starGreedy p s pr cp k
  | .plusC p, s, _pr, cp, k =>
    match s with
    | [] => none
    | c :: rest => if p c then starGreedy p rest (some c) cp k else none
  | .lazyStarC p, s, pr, cp, k => starLazy p s pr cp k
  | .repC p lo hi, s, pr, cp, k => repGreedy p lo hi s pr cp k
  | .grp i a, s, pr, cp, k =>
    mmatch a s pr cp (fun s2 pr2 cp2 => k s2 pr2 ((i, s.take (s.length - s2.length)) :: cp2))
  | .wordB, s, pr, cp, k =>
    if wordO pr == wordHead s then none else k s pr cp
  | .nla a, s, pr, cp, k =>
    match mmatch a s pr cp (fun _ _ cp2 => some cp2) with
    | some _ => none
    | none => k s pr cp
  | .eos, s, pr, cp, k =>
    match s with
    | [] => k [] pr cp
    | _ :: _ => none

/-- Anchored match at the start of the string, the embedding of
`re.match`. -/
def matchAt (re : RE) (s : List Char) : Option Caps :=
  mmatch re s none [] (fun _ _ cp => some cp)

/-- Scan for the leftmost position where the pattern matches, threading
the previous character for word-boundary tests. -/
def searchGo (re : RE) (s : List Char) (pr : Option Char) : Option Caps :=
  match mmatch re s pr [] (fun _ _ cp => some cp) with
  | some cp => some cp
  | none =>
    match s with
    | [] => none
    | c :: rest => searchGo re rest (some c)

/-- Unanchored leftmost search, the embedding of `re.search`. -/
def reSearch (re : RE) (s : List Char) : Option Caps :=
  searchGo re s none

/-- Look up a captured group; absent groups yield `none` exactly as an
unmatched optional group does in Python. -/
def getGrp (cp : Caps) (i : Nat) : Option (List Char) :=
  (cp.find? (fun kv => kv.1 == i)).map (fun kv => kv.2)

/-! ## Pattern building blocks -/

/-- Concatenation of a list of patterns. -/
def seqRE (l : List RE) : RE := l.foldr RE.cat RE.eps

/-- Ordered alternation of a nonempty list of patterns; the trailing
never-matching alternative is unreachable. -/
def altRE (l : List RE) : RE := l.foldr RE.alt (RE.cls (fun _ => false))

/-- Case-sensitive single character. -/
def litChar (c : Char) : RE := RE.cls (fun x => x == c)

/-- Case-sensitive literal string. -/
def lit (s : String) : RE := seqRE (s.data.map litChar)

/-- Case-insensitive single character, with the ASCII case folding that
all the relevant pattern literals use. -/
def litCharCI (c : Char) : RE := RE.cls (fun x => x.toLower == c.toLower)

/-- Case-insensitive literal string. -/
def litCI (s : String) : RE := seqRE (s.data.map litCharCI)

/-- Character class `[IVX]` under `re.IGNORECASE`. -/
def isRomanCI (c : Char) : Bool :=
  c = 'I' || c = 'V' || c = 'X' || c = 'i' || c = 'v' || c = 'x'

/-- Python whitespace class `\s` restricted to the ASCII whitespace
characters, the only ones occurring in the data this engine receives. -/
def isPySpace (c : Char) : Bool :=
  c = ' ' || c = '\t' || c = '\n' || c = '\r' || c = '\x0b' || c = '\x0c'

/-- Python digit class `\d` on ASCII digits. -/
def isDigitC (c : Char) : Bool := c.isDigit

/-- Any character, as matched by `.` (everything except a newline). -/
def isDotC (c : Char) : Bool := c != '\n'

/-- En dash, U+2013. -/
def enDash : Char := Char.ofNat 0x2013

/-- Em dash, U+2014. -/
def emDash : Char := Char.ofNat 0x2014

/-- Figure dash, U+2012. -/
def figDash : Char := Char.ofNat 0x2012

/-- Character class `[-–]`: hyphen or en dash. -/
def isDashHE (c : Char) : Bool := c = '-' || c = enDash

/-- Character class `[/‒–-]`: slash, figure dash, en dash or hyphen. -/
def isSlashDash (c : Char) : Bool := c = '/' || c = figDash || c = enDash || c = '-'

/-- Numeric value of a list of ASCII digits, the embedding of `int`. -/
def digitsToNat (l : List Char) : Nat :=
  l.foldl (fun a c => a * 10 + (c.toNat - 48)) 0

/-- ASCII upper-casing of a character list, the embedding of
`str.upper` on the group values tested here. -/
def toUpperL (l : List Char) : List Char := l.map Char.toUpper

/-- ASCII lower-casing of a character list, the embedding of
`str.lower` on the group values tested here. -/
def toLowerL (l : List Char) : List Char := l.map Char.toLower

/-- Test whether the first list is an initial segment of the second. -/
def leadsWith : List Char → List Char → Bool
  | [], _ => true
  | _ :: _, [] => false
  | p :: ps, c :: cs => p == c && leadsWith ps cs

/-- Substring containment, the embedding of the Python `in` operator on
strings. -/
def containsL (pat : List Char) : List Char → Bool
  | [] => pat.isEmpty
  | c :: rest => leadsWith pat (c :: rest) || containsL pat rest

/-- Worker for `replaceOcc`: the fuel bounds the number of scanning
steps and starts at the length of the list, which every step consumes
at least one character of, so the zero-fuel arm is unreachable. -/
def replaceOccGo (p0 : Char) (pr rep : List Char) : Nat → List Char → List Char
  | _, [] => []
  | 0, l => l
  | fuel + 1, c :: rest =>
    if leadsWith (p0 :: pr) (c :: rest) then
      rep ++ replaceOccGo p0 pr rep fuel (rest.drop pr.length)
    else
      c :: replaceOccGo p0 pr rep fuel rest

/-- Replace every non-overlapping occurrence of `p0 :: pr`, scanning
left to right, the embedding of `str.replace` for a nonempty pattern. -/
def replaceOcc (p0 : Char) (pr rep l : List Char) : List Char :=
  replaceOccGo p0 pr rep l.length l

/-- Apply one substitution-table entry; the table never holds an empty
pattern. -/
def applyRepl (pat rep : List Char) (t : List Char) : List Char :=
  match pat with
  | [] => t
  | p :: ps => replaceOcc p ps rep t

/-- Python `str.strip` on the ASCII whitespace characters. -/
def pyStrip (l : List Char) : List Char :=
  ((l.dropWhile isPySpace).reverse.dropWhile isPySpace).reverse

/-! ## Lexical normalization

Embedding of `normalize_cyrillic_to_latin` (source lines 116-140): a
fixed substitution table applied by successive `str.replace` calls in
the written order of the Python dict. The keys are given by code point
to make the look-alike characters explicit. -/

/-- Substitution table of the Python `cyrillic_map`, in insertion
order: Cyrillic Х, х, І, і, В, С, М, the two-character mojibake
sequences for Х and І, and Cyrillic у. -/
def cyrillicMap : List (List Char × List Char) :=
  [ ([Char.ofNat 0x425], ['X'])
  , ([Char.ofNat 0x445], ['x'])
  , ([Char.ofNat 0x406], ['I'])
  , ([Char.ofNat 0x456], ['i'])
  , ([Char.ofNat 0x412], ['B'])
  , ([Char.ofNat 0x421], ['C'])
  , ([Char.ofNat 0x41C], ['M'])
  , ([Char.ofNat 0xD0, Char.ofNat 0xA5], ['X'])
  , ([Char.ofNat 0xD0, Char.ofNat 0x2020], ['I'])
  , ([Char.ofNat 0x443], ['y']) ]

/-- Embedding of `normalize_cyrillic_to_latin`: fold the substitution
table over the text. The Python guard returning null or empty input
unchanged is the identity on those inputs, as is the fold. -/
def normalize_cyrillic_to_latin (t : List Char) : List Char :=
  cyrillicMap.foldl (fun acc kv => applyRepl kv.1 kv.2 acc) t

/-! ## Century and millennium tables -/

/-- The `century_patterns` dict repeated throughout
`extract_year_from_date`, in insertion order: Roman numeral of the
century mapped to its representative midpoint year. -/
def centuryPatternsList : List (String × Int) :=
  [ ("XX", 1950), ("XIX", 1850), ("XVIII", 1750), ("XVII", 1650), ("XVI", 1550)
  , ("XV", 1450), ("XIV", 1350), ("XIII", 1250), ("XII", 1150), ("XI", 1050)
  , ("X", 950), ("IX", 850), ("VIII", 750), ("VII", 650), ("VI", 550)
  , ("V", 450), ("IV", 350), ("III", 250), ("II", 150), ("I", 50) ]

/-- Case-sensitive dict lookup `century_patterns[r]`; a lower-case
capture produced by a case-insensitive pattern misses the table exactly
as in Python. -/
def centuryLookup (r : List Char) : Option Int :=
  (centuryPatternsList.find? (fun kv => kv.1.data == r)).map (fun kv => kv.2)

/-- The `millennium_map` dict (source lines 510-513): numerals I
through X only. -/
def millenniumMapList : List (String × Int) :=
  [ ("I", 1), ("II", 2), ("III", 3), ("IV", 4), ("V", 5)
  , ("VI", 6), ("VII", 7), ("VIII", 8), ("IX", 9), ("X", 10) ]

/-- Lookup in `millennium_map`. -/
def millenniumLookup (r : List Char) : Option Int :=
  (millenniumMapList.find? (fun kv => kv.1.data == r)).map (fun kv => kv.2)

/-- Shared shape `-midpoint if is_bc else midpoint` applied to the
midpoint `(y1 + y2) / 2` of two bounds: the estimate-resolver step the
source repeats in each range recognizer. -/
def signedMidpoint (y1 y2 : ℚ) (isBC : Bool) : ℚ :=
  if isBC then -((y1 + y2) / 2) else (y1 + y2) / 2

/-! ## The recognizer cascade

Each `ruleX` function embeds one recognizer of `extract_year_from_date`
in source order; `none` covers both a failed pattern match and a match
whose guarded body reaches no `return`, after which the Python control
flow falls to the next recognizer. Group numbers follow the Python
pattern. -/

/-- Regex `^([IVX]+)\s*-\s*([IVX]+)$` with IGNORECASE (source line
166): lone Roman numeral range. -/
def loneRomanRE : RE :=
  seqRE [ RE.grp 1 (RE.plusC isRomanCI), RE.starC isPySpace, litChar '-'
        , RE.starC isPySpace, RE.grp 2 (RE.plusC isRomanCI), RE.eos ]

/-- Recognizer for lone Roman ranges such as `XIX - XX` (source lines
166-181), guarded by a total length below 10; both numerals must be in
the century table. -/
def ruleLoneRoman (s : List Char) : Option ℚ :=
  match matchAt loneRomanRE s with
  | none => none
  | some cp =>
    if s.length < 10 then
      match getGrp cp 1, getGrp cp 2 with
      | some r1, some r2 =>
        match centuryLookup r1, centuryLookup r2 with
        | some y1, some y2 => some (((y1 : ℚ) + (y2 : ℚ)) / 2)
        | _, _ => none
      | _, _ => none
    else none

/-- Regex `^([IVX]+)$` with IGNORECASE (source line 184): single lone
Roman numeral. -/
def singleRomanRE : RE := seqRE [ RE.grp 1 (RE.plusC isRomanCI), RE.eos ]

/-- Recognizer for a single lone Roman numeral (source lines 184-196),
guarded by a length between 2 and 5. -/
def ruleSingleRoman (s : List Char) : Option ℚ :=
  match matchAt singleRomanRE s with
  | none => none
  | some cp =>
    if 2 ≤ s.length ∧ s.length ≤ 5 then
      match getGrp cp 1 with
      | some r =>
        match centuryLookup r with
        | some y => some (y : ℚ)
        | none => none
      | none => none
    else none

/-- Regex `^(\d{1,4})[-–](\d{1,4})(\s*(AD|BC))?$` (source line 200):
bare year range with optional era suffix, case-sensitive. -/
def yearOnlyRangeRE : RE :=
  seqRE [ RE.grp 1 (RE.repC isDigitC 1 4), RE.cls isDashHE
        , RE.grp 2 (RE.repC isDigitC 1 4)
        , RE.opt (RE.grp 3 (seqRE [ RE.starC isPySpace
                                  , RE.grp 4 (RE.alt (lit "AD") (lit "BC")) ]))
        , RE.eos ]

/-- Recognizer for bare year ranges (source lines 200-212): midpoint,
negative when the suffix group is `BC`. -/
def ruleYearOnlyRange (s : List Char) : Option ℚ :=
  match matchAt yearOnlyRangeRE s with
  | none => none
  | some cp =>
    match getGrp cp 1, getGrp cp 2 with
    | some d1, some d2 =>
      let y1 : ℚ := (digitsToNat d1 : ℚ)
      let y2 : ℚ := (digitsToNat d2 : ℚ)
      let isBC := match getGrp cp 4 with
        | some suf => containsL "BC".data (toUpperL suf)
        | none => false
      some (signedMidpoint y1 y2 isBC)
    | _, _ => none

/-- Regex `^(\d{1,3})(\s*(AD|BC))?$` (source line 215): bare short year
with optional era suffix. -/
def yearOnlyRE : RE :=
  seqRE [ RE.grp 1 (RE.repC isDigitC 1 3)
        , RE.opt (RE.grp 2 (seqRE [ RE.starC isPySpace
                                  , RE.grp 3 (RE.alt (lit "AD") (lit "BC")) ]))
        , RE.eos ]

/-- Recognizer for a bare short year (source lines 215-223): negated
under a BC suffix, returned unchanged when below 500, and otherwise
falling through with no result. -/
def ruleYearOnly (s : List Char) : Option ℚ :=
  match matchAt yearOnlyRE s with
  | none => none
  | some cp =>
    match getGrp cp 1 with
    | some d =>
      let y : ℚ := (digitsToNat d : ℚ)
      match getGrp cp 3 with
      | some suf => if containsL "BC".data (toUpperL suf) then some (-y)
                    else if y < 500 then some y else none
      | none => if y < 500 then some y else none
    | none => none

/-- Shared tail `centuries?` of several patterns: the literal
`centurie` followed by an optional `s`, which notably does not match
the singular `century`. -/
def centuriesRE : RE := seqRE [ litCI "centurie", RE.opt (litCI "s") ]

/-- Regex `end\s+of\s+the\s+([IVX]+)[-–]([IVX]+)\s*centuries?\s*(BC)?`
with IGNORECASE (source lines 226-229). -/
def endRangeRE : RE :=
  seqRE [ litCI "end", RE.plusC isPySpace, litCI "of", RE.plusC isPySpace
        , litCI "the", RE.plusC isPySpace, RE.grp 1 (RE.plusC isRomanCI)
        , RE.cls isDashHE, RE.grp 2 (RE.plusC isRomanCI), RE.starC isPySpace
        , centuriesRE, RE.starC isPySpace, RE.opt (RE.grp 3 (litCI "BC")) ]

/-- Recognizer for `end of the X-Y centuries` (source lines 226-244):
uses the later century plus 38, negated under BC. -/
def ruleEndRange (s : List Char) : Option ℚ :=
  match reSearch endRangeRE s with
  | none => none
  | some cp =>
    match getGrp cp 2 with
    | some r2 =>
      match centuryLookup r2 with
      | some y =>
        let isBC := (getGrp cp 3).isSome
        some (if isBC then -((y : ℚ) + 38) else (y : ℚ) + 38)
      | none => none
    | none => none

/-- Quarter keyword alternation `(second|first|third|fourth)` in its
written order. -/
def quarterWordRE (i : Nat) : RE :=
  RE.grp i (altRE [ litCI "second", litCI "first", litCI "third", litCI "fourth" ])

/-- Regex
`([IVX]+)\s*[-–]\s*(second|first|third|fourth)\s*quarter\s*([IVX]+)\s*centuries?\s*(BC)?`
with IGNORECASE (source lines 247-250). -/
def quarterCenturyRE : RE :=
  seqRE [ RE.grp 1 (RE.plusC isRomanCI), RE.starC isPySpace, RE.cls isDashHE
        , RE.starC isPySpace, quarterWordRE 2, RE.starC isPySpace
        , litCI "quarter", RE.starC isPySpace, RE.grp 3 (RE.plusC isRomanCI)
        , RE.starC isPySpace, centuriesRE, RE.starC isPySpace
        , RE.opt (RE.grp 4 (litCI "BC")) ]

/-- Quarter offset applied to the second century (source lines
269-276): first -38, second -12, third +12, fourth +38, keyed by
substring containment on the lower-cased quarter word. -/
def quarterAdjust (quarter : List Char) (y : ℚ) : ℚ :=
  if containsL "first".data quarter then y - 38
  else if containsL "second".data quarter then y - 12
  else if containsL "third".data quarter then y + 12
  else if containsL "fourth".data quarter then y + 38
  else y

/-- Recognizer for century ranges whose second bound carries a quarter
qualifier (source lines 247-279). -/
def ruleQuarterCentury (s : List Char) : Option ℚ :=
  match reSearch quarterCenturyRE s with
  | none => none
  | some cp =>
    match getGrp cp 1, getGrp cp 2, getGrp cp 3 with
    | some r1, some q, some r2 =>
      match centuryLookup r1, centuryLookup r2 with
      | some y1, some y2 =>
        let y2q := quarterAdjust (toLowerL q) (y2 : ℚ)
        some (signedMidpoint (y1 : ℚ) y2q ((getGrp cp 4).isSome))
      | _, _ => none
    | _, _, _ => none

/-- Regex `^(\d{4})\s*century` with IGNORECASE (source line 282):
obviously wrong formats such as `1900 century AD`. -/
def wrongFormatRE : RE :=
  seqRE [ RE.grp 1 (RE.repC isDigitC 4 4), RE.starC isPySpace, litCI "century" ]

/-- Recognizer returning the four-digit number of a wrong
`NNNN century` format (source lines 282-284). -/
def ruleWrongFormat (s : List Char) : Option ℚ :=
  match matchAt wrongFormatRE s with
  | none => none
  | some cp =>
    match getGrp cp 1 with
    | some d => some ((digitsToNat d : ℚ))
    | none => none

/-- Regex `\b([IVX]+)\s*[-–]?\s*([IVX]+)\s*centuries?\s*(BC)?` with
IGNORECASE (source lines 287-289): century ranges written without a
dash. -/
def centurySpaceRangeRE : RE :=
  seqRE [ RE.wordB, RE.grp 1 (RE.plusC isRomanCI), RE.starC isPySpace
        , RE.opt (RE.cls isDashHE), RE.starC isPySpace
        , RE.grp 2 (RE.plusC isRomanCI), RE.starC isPySpace, centuriesRE
        , RE.starC isPySpace, RE.opt (RE.grp 3 (litCI "BC")) ]

/-- Recognizer for dashless century ranges (source lines 287-307):
midpoint of the two table years, negated under BC. -/
def ruleCenturySpaceRange (s : List Char) : Option ℚ :=
  match reSearch centurySpaceRangeRE s with
  | none => none
  | some cp =>
    match getGrp cp 1, getGrp cp 2 with
    | some r1, some r2 =>
      match centuryLookup r1, centuryLookup r2 with
      | some y1, some y2 => some (signedMidpoint (y1 : ℚ) (y2 : ℚ) ((getGrp cp 3).isSome))
      | _, _ => none
    | _, _ => none

/-- Regex `(early|late|end)\s+([IVX]+)th\s*century` with IGNORECASE
(source lines 310-313). -/
def earlyThRE : RE :=
  seqRE [ RE.grp 1 (altRE [ litCI "early", litCI "late", litCI "end" ])
        , RE.plusC isPySpace, RE.grp 2 (RE.plusC isRomanCI), litCI "th"
        , RE.starC isPySpace, litCI "century" ]

/-- Recognizer for `early XIXth century` style (source lines 310-332):
late or end shifts +38, early shifts -38. -/
def ruleEarlyTh (s : List Char) : Option ℚ :=
  match reSearch earlyThRE s with
  | none => none
  | some cp =>
    match getGrp cp 1, getGrp cp 2 with
    | some w, some r =>
      match centuryLookup r with
      | some y =>
        let part := toLowerL w
        if containsL "late".data part || containsL "end".data part then some ((y : ℚ) + 38)
        else if containsL "early".data part then some ((y : ℚ) - 38)
        else some (y : ℚ)
      | none => none
    | _, _ => none

/-- Regex `(early|late|end|beginning)\s+(\d{1,2})(st|nd|rd|th)\s*cent`
with IGNORECASE (source lines 335-338). -/
def earlyArabicRE : RE :=
  seqRE [ RE.grp 1 (altRE [ litCI "early", litCI "late", litCI "end", litCI "beginning" ])
        , RE.plusC isPySpace, RE.grp 2 (RE.repC isDigitC 1 2)
        , RE.grp 3 (altRE [ litCI "st", litCI "nd", litCI "rd", litCI "th" ])
        , RE.starC isPySpace, litCI "cent" ]

/-- Recognizer for `early 20th cent.` style with Arabic century numbers
(source lines 335-351): base year `(n - 1) * 100 + 50`, shifted by
plus or minus 38. -/
def ruleEarlyArabic (s : List Char) : Option ℚ :=
  match reSearch earlyArabicRE s with
  | none => none
  | some cp =>
    match getGrp cp 1, getGrp cp 2 with
    | some w, some d =>
      let base : ℚ := ((digitsToNat d : ℚ) - 1) * 100 + 50
      let part := toLowerL w
      if containsL "late".data part || containsL "end".data part then some (base + 38)
      else if containsL "early".data part || containsL "beginning".data part then some (base - 38)
      else some base
    | _, _ => none

/-- Cyrillic letter г (U+0433), from the `г.` year suffix. -/
def cyrGhe : Char := Char.ofNat 0x433

/-- Cyrillic two-letter sequence ВС (U+0412, U+0421) appearing as a BC
suffix variant. -/
def cyrVS : List Char := [Char.ofNat 0x412, Char.ofNat 0x421]

/-- Suffix alternation `(BC|AD|ВС)`, case-sensitive form. -/
def sufBcAdVsRE (i : Nat) : RE :=
  RE.grp i (altRE [ lit "BC", lit "AD", seqRE (cyrVS.map litChar) ])

/-- Python test `'BC' in suffix.upper() or 'ВС' in suffix` applied to a
matched suffix group. -/
def sufIsBC (suf : List Char) : Bool :=
  containsL "BC".data (toUpperL suf) || containsL cyrVS suf

/-- Regex `^(\d{1,4})[/‒–-](\d{1,4})(\s*г\.?)?(\s*(BC|AD|ВС))?$`
(source line 355), case-sensitive: year ranges with slash or dash
variants. -/
def slashRangeRE : RE :=
  seqRE [ RE.grp 1 (RE.repC isDigitC 1 4), RE.cls isSlashDash
        , RE.grp 2 (RE.repC isDigitC 1 4)
        , RE.opt (RE.grp 3 (seqRE [ RE.starC isPySpace, litChar cyrGhe
                                  , RE.opt (litChar '.') ]))
        , RE.opt (RE.grp 4 (seqRE [ RE.starC isPySpace, sufBcAdVsRE 5 ]))
        , RE.eos ]

/-- Recognizer for slash or dash year ranges (source lines 355-366):
midpoint, negated when the suffix is a BC variant. -/
def ruleSlashRange (s : List Char) : Option ℚ :=
  match matchAt slashRangeRE s with
  | none => none
  | some cp =>
    match getGrp cp 1, getGrp cp 2 with
    | some d1, some d2 =>
      let isBC := match getGrp cp 5 with
        | some suf => sufIsBC suf
        | none => false
      some (signedMidpoint (digitsToNat d1 : ℚ) (digitsToNat d2 : ℚ) isBC)
    | _, _ => none

/-- Regex `^(\d{1,4})/(\d{1,4})[-–](\d{1,4})/(\d{1,4})(\s*(BC|AD|ВС))?$`
(source line 369), case-sensitive: compound slash ranges. -/
def complexSlashRE : RE :=
  seqRE [ RE.grp 1 (RE.repC isDigitC 1 4), litChar '/'
        , RE.grp 2 (RE.repC isDigitC 1 4), RE.cls isDashHE
        , RE.grp 3 (RE.repC isDigitC 1 4), litChar '/'
        , RE.grp 4 (RE.repC isDigitC 1 4)
        , RE.opt (RE.grp 5 (seqRE [ RE.starC isPySpace, sufBcAdVsRE 6 ]))
        , RE.eos ]

/-- Recognizer for compound slash ranges (source lines 369-383):
average of all four years, negated under a BC variant. -/
def ruleComplexSlash (s : List Char) : Option ℚ :=
  match matchAt complexSlashRE s with
  | none => none
  | some cp =>
    match getGrp cp 1, getGrp cp 2, getGrp cp 3, getGrp cp 4 with
    | some a, some b, some c, some d =>
      let avg : ℚ := ((digitsToNat a : ℚ) + (digitsToNat b : ℚ)
        + (digitsToNat c : ℚ) + (digitsToNat d : ℚ)) / 4
      let isBC := match getGrp cp 6 with
        | some suf => sufIsBC suf
        | none => false
      some (if isBC then -avg else avg)
    | _, _, _, _ => none

/-- Regex `(\d{1,4})/(\d{1,4})\s+or\s+(\d{1,4})/(\d{1,4})` with
IGNORECASE (source line 386): alternatives joined by `or`. -/
def orAlternativeRE : RE :=
  seqRE [ RE.grp 1 (RE.repC isDigitC 1 4), litChar '/'
        , RE.grp 2 (RE.repC isDigitC 1 4), RE.plusC isPySpace
        , litCI "or", RE.plusC isPySpace
        , RE.grp 3 (RE.repC isDigitC 1 4), litChar '/'
        , RE.grp 4 (RE.repC isDigitC 1 4) ]

/-- Recognizer for `or` alternatives (source lines 386-394): average of
the four possibilities. -/
def ruleOrAlternative (s : List Char) : Option ℚ :=
  match reSearch orAlternativeRE s with
  | none => none
  | some cp =>
    match getGrp cp 1, getGrp cp 2, getGrp cp 3, getGrp cp 4 with
    | some a, some b, some c, some d =>
      some (((digitsToNat a : ℚ) + (digitsToNat b : ℚ)
        + (digitsToNat c : ℚ) + (digitsToNat d : ℚ)) / 4)
    | _, _, _, _ => none

/-- Regex `^(\d{1,4})\s*г\.?(\s*(BC|AD|ВС))?$` with IGNORECASE (source
line 397): a year with the Cyrillic year marker. -/
def yearGRE : RE :=
  seqRE [ RE.grp 1 (RE.repC isDigitC 1 4), RE.starC isPySpace
        , litChar cyrGhe, RE.opt (litChar '.')
        , RE.opt (RE.grp 2 (seqRE [ RE.starC isPySpace, sufBcAdVsRE 3 ]))
        , RE.eos ]

/-- Recognizer for `973 г.` style years (source lines 397-405). -/
def ruleYearG (s : List Char) : Option ℚ :=
  match matchAt yearGRE s with
  | none => none
  | some cp =>
    match getGrp cp 1 with
    | some d =>
      let y : ℚ := (digitsToNat d : ℚ)
      let isBC := match getGrp cp 3 with
        | some suf => sufIsBC suf
        | none => false
      some (if isBC then -y else y)
    | none => none

/-- Quarter keyword alternation
`(beginning|last|first|second|third|fourth)` in its written order. -/
def ordQuarterWordRE (i : Nat) : RE :=
  RE.grp i (altRE [ litCI "beginning", litCI "last", litCI "first"
                  , litCI "second", litCI "third", litCI "fourth" ])

/-- Ordinal suffix alternation `(st|nd|rd|th)`. -/
def ordSuffixRE (i : Nat) : RE :=
  RE.grp i (altRE [ litCI "st", litCI "nd", litCI "rd", litCI "th" ])

/-- Regex of source lines 408-411 with IGNORECASE:
`(beginning|last|first|second|third|fourth)\s+quarter\s+of\s+the\s+([IVX]+)\s*(st|nd|rd|th)?\s*[-–]\s*(beginning|last|first|second|third|fourth)?\s*of\s+the\s+([IVX]+)\s*(st|nd|rd|th)?\s*century`. -/
def ordinalRangeRE : RE :=
  seqRE [ ordQuarterWordRE 1, RE.plusC isPySpace, litCI "quarter"
        , RE.plusC isPySpace, litCI "of", RE.plusC isPySpace, litCI "the"
        , RE.plusC isPySpace, RE.grp 2 (RE.plusC isRomanCI)
        , RE.starC isPySpace, RE.opt (ordSuffixRE 3), RE.starC isPySpace
        , RE.cls isDashHE, RE.starC isPySpace, RE.opt (ordQuarterWordRE 4)
        , RE.starC isPySpace, litCI "of", RE.plusC isPySpace, litCI "the"
        , RE.plusC isPySpace, RE.grp 5 (RE.plusC isRomanCI)
        , RE.starC isPySpace, RE.opt (ordSuffixRE 6), RE.starC isPySpace
        , litCI "century" ]

/-- Recognizer for quarter-qualified century ranges spelled with
ordinals (source lines 408-438): the first bound shifts +38 for a last
or fourth quarter and -38 for a first quarter or beginning, the second
bound shifts -38 for a beginning or first quarter (defaulting to
beginning when the word is absent), and no era sign is applied. -/
def ruleOrdinalRange (s : List Char) : Option ℚ :=
  match reSearch ordinalRangeRE s with
  | none => none
  | some cp =>
    match getGrp cp 1, getGrp cp 2, getGrp cp 5 with
    | some w1, some r1, some r2 =>
      let q1 := toLowerL w1
      let q2 := match getGrp cp 4 with
        | some w2 => toLowerL w2
        | none => "beginning".data
      match centuryLookup r1, centuryLookup r2 with
      | some y1, some y2 =>
        let y1a : ℚ :=
          if containsL "last".data q1 || containsL "fourth".data q1 then (y1 : ℚ) + 38
          else if containsL "first".data q1 || containsL "beginning".data q1 then (y1 : ℚ) - 38
          else (y1 : ℚ)
        let y2a : ℚ :=
          if containsL "beginning".data q2 || containsL "first".data q2 then (y2 : ℚ) - 38
          else (y2 : ℚ)
        some ((y1a + y2a) / 2)
      | _, _ => none
    | _, _, _ => none

/-- Regex `(beginning|start|early)\s+of\s+the\s+([IVX]+)(st|nd|rd|th|d)\s*century`
with IGNORECASE (source lines 441-443). -/
def beginningOrdinalRE : RE :=
  seqRE [ RE.grp 1 (altRE [ litCI "beginning", litCI "start", litCI "early" ])
        , RE.plusC isPySpace, litCI "of", RE.plusC isPySpace, litCI "the"
        , RE.plusC isPySpace, RE.grp 2 (RE.plusC isRomanCI)
        , RE.grp 3 (altRE [ litCI "st", litCI "nd", litCI "rd", litCI "th", litCI "d" ])
        , RE.starC isPySpace, litCI "century" ]

/-- Recognizer for `beginning of the IIId century` style (source lines
441-456): the century year minus 38. -/
def ruleBeginningOrdinal (s : List Char) : Option ℚ :=
  match reSearch beginningOrdinalRE s with
  | none => none
  | some cp =>
    match getGrp cp 2 with
    | some r =>
      match centuryLookup r with
      | some y => some ((y : ℚ) - 38)
      | none => none
    | none => none

/-- Regex of source lines 459-462 with IGNORECASE:
`(second|first)\s+half\s+(\d{1,2})(st|nd|rd|th)\s*[-–]\s*(first|second|last)\s+half\s+(\d{1,2})(st|nd|rd|th)\s*century`. -/
def halfOrdinalRE : RE :=
  seqRE [ RE.grp 1 (RE.alt (litCI "second") (litCI "first"))
        , RE.plusC isPySpace, litCI "half", RE.plusC isPySpace
        , RE.grp 2 (RE.repC isDigitC 1 2), ordSuffixRE 3
        , RE.starC isPySpace, RE.cls isDashHE, RE.starC isPySpace
        , RE.grp 4 (altRE [ litCI "first", litCI "second", litCI "last" ])
        , RE.plusC isPySpace, litCI "half", RE.plusC isPySpace
        , RE.grp 5 (RE.repC isDigitC 1 2), ordSuffixRE 6
        , RE.starC isPySpace, litCI "century" ]

/-- Recognizer for half-qualified Arabic century ranges (source lines
459-484): base years `(n - 1) * 100 + 50` shifted by plus or minus 12;
a `last` second half leaves the base unchanged. -/
def ruleHalfOrdinal (s : List Char) : Option ℚ :=
  match reSearch halfOrdinalRE s with
  | none => none
  | some cp =>
    match getGrp cp 1, getGrp cp 2, getGrp cp 4, getGrp cp 5 with
    | some h1, some c1, some h2, some c2 =>
      let y1 : ℚ := ((digitsToNat c1 : ℚ) - 1) * 100 + 50
      let y2 : ℚ := ((digitsToNat c2 : ℚ) - 1) * 100 + 50
      let half1 := toLowerL h1
      let half2 := toLowerL h2
      let y1a := if containsL "second".data half1 then y1 + 12
        else if containsL "first".data half1 then y1 - 12 else y1
      let y2a := if containsL "first".data half2 then y2 - 12
        else if containsL "second".data half2 then y2 + 12 else y2
      some ((y1a + y2a) / 2)
    | _, _, _, _ => none

/-- Regex `(\d+)-(\d+)\s*thousand\s*years?\s*ago` with IGNORECASE
(source line 490). -/
def thousandRangeRE : RE :=
  seqRE [ RE.grp 1 (RE.plusC isDigitC), litChar '-', RE.grp 2 (RE.plusC isDigitC)
        , RE.starC isPySpace, litCI "thousand", RE.starC isPySpace
        , litCI "year", RE.opt (litCI "s"), RE.starC isPySpace, litCI "ago" ]

/-- Recognizer for `40-12 thousand years ago` (source lines 490-495):
negative midpoint scaled by 1000. -/
def ruleThousandRange (s : List Char) : Option ℚ :=
  match reSearch thousandRangeRE s with
  | none => none
  | some cp =>
    match getGrp cp 1, getGrp cp 2 with
    | some a, some b =>
      some (-(((digitsToNat a : ℚ) + (digitsToNat b : ℚ)) / 2 * 1000))
    | _, _ => none

/-- Regex `(\d+)\s*thousand\s*years?\s*ago` with IGNORECASE (source
line 498). -/
def thousandRE : RE :=
  seqRE [ RE.grp 1 (RE.plusC isDigitC), RE.starC isPySpace, litCI "thousand"
        , RE.starC isPySpace, litCI "year", RE.opt (litCI "s")
        , RE.starC isPySpace, litCI "ago" ]

/-- Recognizer for `N thousand years ago` (source lines 498-501). -/
def ruleThousand (s : List Char) : Option ℚ :=
  match reSearch thousandRE s with
  | none => none
  | some cp =>
    match getGrp cp 1 with
    | some a => some (-((digitsToNat a : ℚ) * 1000))
    | none => none

/-- Regex `\b([IVX]+)\s*millennium\s*(BC|AD)?\b` with IGNORECASE
(source line 504). -/
def millenniumSingleRE : RE :=
  seqRE [ RE.wordB, RE.grp 1 (RE.plusC isRomanCI), RE.starC isPySpace
        , litCI "millennium", RE.starC isPySpace
        , RE.opt (RE.grp 2 (RE.alt (litCI "BC") (litCI "AD"))), RE.wordB ]

/-- Recognizer for single millennium notation (source lines 504-521):
a BC millennium maps to `-(n * 1000 - 500)` and a CE one to
`(n - 1) * 1000 + 500`. -/
def ruleMillenniumSingle (s : List Char) : Option ℚ :=
  match reSearch millenniumSingleRE s with
  | none => none
  | some cp =>
    match getGrp cp 1 with
    | some r =>
      let isBC := match getGrp cp 2 with
        | some suf => containsL "BC".data (toUpperL suf)
        | none => false
      match millenniumLookup r with
      | some m =>
        if isBC then some (-(((m : ℚ) * 1000) - 500))
        else some (((m : ℚ) - 1) * 1000 + 500)
      | none => none
    | none => none

/-- Regex `(\d+)-(\d+)\s*millennium\s*BC` with IGNORECASE (source line
524). -/
def millenniumRangeRE : RE :=
  seqRE [ RE.grp 1 (RE.plusC isDigitC), litChar '-', RE.grp 2 (RE.plusC isDigitC)
        , RE.starC isPySpace, litCI "millennium", RE.starC isPySpace, litCI "BC" ]

/-- Recognizer for numeric millennium BC ranges (source lines 524-530):
`-(m1 * 1000 + m2 * 1000) / 2`. -/
def ruleMillenniumRange (s : List Char) : Option ℚ :=
  match reSearch millenniumRangeRE s with
  | none => none
  | some cp =>
    match getGrp cp 1, getGrp cp 2 with
    | some a, some b =>
      some (-((digitsToNat a : ℚ) * 1000 + (digitsToNat b : ℚ) * 1000) / 2)
    | _, _ => none

/-- Regex `(\d+)[-–](\d+)s\s*(BC)?` with IGNORECASE (source line 533). -/
def decadeRangeRE : RE :=
  seqRE [ RE.grp 1 (RE.plusC isDigitC), RE.cls isDashHE
        , RE.grp 2 (RE.plusC isDigitC), litCI "s", RE.starC isPySpace
        , RE.opt (RE.grp 3 (litCI "BC")) ]

/-- Recognizer for decade ranges such as `580-560s BC` (source lines
533-539): signed midpoint. -/
def ruleDecadeRange (s : List Char) : Option ℚ :=
  match reSearch decadeRangeRE s with
  | none => none
  | some cp =>
    match getGrp cp 1, getGrp cp 2 with
    | some a, some b =>
      some (signedMidpoint (digitsToNat a : ℚ) (digitsToNat b : ℚ) ((getGrp cp 3).isSome))
    | _, _ => none

/-- Regex `(\d+)s\s*(BC)?` with IGNORECASE (source line 542). -/
def decadeRE : RE :=
  seqRE [ RE.grp 1 (RE.plusC isDigitC), litCI "s", RE.starC isPySpace
        , RE.opt (RE.grp 2 (litCI "BC")) ]

/-- Recognizer for a single decade such as `1920s` (source lines
542-548): decade start plus 5, negated under BC. -/
def ruleDecade (s : List Char) : Option ℚ :=
  match reSearch decadeRE s with
  | none => none
  | some cp =>
    match getGrp cp 1 with
    | some a =>
      let mid : ℚ := (digitsToNat a : ℚ) + 5
      some (if (getGrp cp 2).isSome then -mid else mid)
    | none => none

/-- Part-of-century keyword alternation
`(end|ending|late|second half|first half|beginning|start|early|middle|mid)`
in its written order. -/
def partWordRE : RE :=
  RE.grp 1 (altRE [ litCI "end", litCI "ending", litCI "late"
                  , litCI "second half", litCI "first half", litCI "beginning"
                  , litCI "start", litCI "early", litCI "middle", litCI "mid" ])

/-- Regex
`(end|ending|late|second half|first half|beginning|start|early|middle|mid).*?([IVX]+)\s*century\s*(BC|AD)?`
with IGNORECASE (source lines 556-559). -/
def partOfCenturyRE : RE :=
  seqRE [ partWordRE, RE.lazyStarC isDotC, RE.grp 2 (RE.plusC isRomanCI)
        , RE.starC isPySpace, litCI "century", RE.starC isPySpace
        , RE.opt (RE.grp 3 (RE.alt (litCI "BC") (litCI "AD"))) ]

/-- Recognizer for part-of-century phrases (source lines 556-592): end,
late or ending shifts +38, a second half +12, a first half, early,
beginning or start -38, middle or mid keeps the midpoint; the result is
negated under a BC suffix. -/
def rulePartOfCentury (s : List Char) : Option ℚ :=
  match reSearch partOfCenturyRE s with
  | none => none
  | some cp =>
    match getGrp cp 1, getGrp cp 2 with
    | some w, some r =>
      let part := toLowerL w
      let isBC := match getGrp cp 3 with
        | some suf => containsL "BC".data (toUpperL suf)
        | none => false
      match centuryLookup r with
      | some base =>
        let year : ℚ :=
          if containsL "end".data part || containsL "late".data part
              || containsL "ending".data part then (base : ℚ) + 38
          else if containsL "second half".data part then (base : ℚ) + 12
          else if containsL "first half".data part || containsL "early".data part
              || containsL "beginning".data part || containsL "start".data part then
            (base : ℚ) - 38
          else if containsL "middle".data part || containsL "mid".data part then (base : ℚ)
          else (base : ℚ)
        some (if isBC then -year else year)
      | none => none
    | _, _ => none

/-- Regex
`([IVX]+)\s*-\s*(first|second|third|fourth|last)\s*q\.?\s*([IVX]+)\s*century\s*(BC|AD)?`
with IGNORECASE (source lines 595-598). -/
def quarterRangeRE : RE :=
  seqRE [ RE.grp 1 (RE.plusC isRomanCI), RE.starC isPySpace, litChar '-'
        , RE.starC isPySpace
        , RE.grp 2 (altRE [ litCI "first", litCI "second", litCI "third"
                          , litCI "fourth", litCI "last" ])
        , RE.starC isPySpace, litCI "q", RE.opt (litChar '.')
        , RE.starC isPySpace, RE.grp 3 (RE.plusC isRomanCI)
        , RE.starC isPySpace, litCI "century", RE.starC isPySpace
        , RE.opt (RE.grp 4 (RE.alt (litCI "BC") (litCI "AD"))) ]

/-- Recognizer for quarter ranges between centuries such as
`XIX - first q. XX century AD` (source lines 595-627): the second
century shifts by the quarter offset (last counts as fourth), then the
signed midpoint is taken. -/
def ruleQuarterRange (s : List Char) : Option ℚ :=
  match reSearch quarterRangeRE s with
  | none => none
  | some cp =>
    match getGrp cp 1, getGrp cp 2, getGrp cp 3 with
    | some r1, some q, some r2 =>
      let quarter := toLowerL q
      let isBC := match getGrp cp 4 with
        | some suf => containsL "BC".data (toUpperL suf)
        | none => false
      match centuryLookup r1, centuryLookup r2 with
      | some y1, some y2 =>
        let y2a : ℚ :=
          if containsL "first".data quarter then (y2 : ℚ) - 38
          else if containsL "second".data quarter then (y2 : ℚ) - 12
          else if containsL "third".data quarter then (y2 : ℚ) + 12
          else if containsL "fourth".data quarter || containsL "last".data quarter then
            (y2 : ℚ) + 38
          else (y2 : ℚ)
        some (signedMidpoint (y1 : ℚ) y2a isBC)
      | _, _ => none
    | _, _, _ => none

/-- Pattern `\b{numeral}\b\s*century\s*BC` with IGNORECASE built for
one table numeral (source line 656). -/
def bcCenturyRE (numeral : String) : RE :=
  seqRE [ RE.wordB, litCI numeral, RE.wordB, RE.starC isPySpace
        , litCI "century", RE.starC isPySpace, litCI "BC" ]

/-- The if/elif chain of the BC century loop (source lines 659-674):
only the numerals I through VIII have a return branch; any other
matching numeral continues the loop. -/
def bcCenturyReturn (numeral : String) : Option ℚ :=
  if numeral = "I" then some (-50)
  else if numeral = "II" then some (-150)
  else if numeral = "III" then some (-250)
  else if numeral = "IV" then some (-350)
  else if numeral = "V" then some (-450)
  else if numeral = "VI" then some (-550)
  else if numeral = "VII" then some (-650)
  else if numeral = "VIII" then some (-750)
  else none

/-- Loop body of the BC century check (source lines 655-674): iterate
the table in insertion order; on a pattern hit, return the chain value
when one exists and otherwise fall through to the next numeral. -/
def bcCenturyLoop : List (String × Int) → List Char → Option ℚ
  | [], _ => none
  | (numeral, _) :: rest, s =>
    if (reSearch (bcCenturyRE numeral) s).isSome then
      match bcCenturyReturn numeral with
      | some v => some v
      | none => bcCenturyLoop rest s
    else bcCenturyLoop rest s

/-- Recognizer embedding the BC century loop over the full table. -/
def ruleBcCentury (s : List Char) : Option ℚ :=
  bcCenturyLoop centuryPatternsList s

/-- Pattern `\b{numeral}\b\s*century` with IGNORECASE built for one
table numeral (source line 678). -/
def adCenturyRE (numeral : String) : RE :=
  seqRE [ RE.wordB, litCI numeral, RE.wordB, RE.starC isPySpace, litCI "century" ]

/-- Loop of the plain century check (source lines 677-680): the first
numeral in insertion order whose pattern matches yields its table
year. -/
def adCenturyLoop : List (String × Int) → List Char → Option ℚ
  | [], _ => none
  | (numeral, year) :: rest, s =>
    if (reSearch (adCenturyRE numeral) s).isSome then some (year : ℚ)
    else adCenturyLoop rest s

/-- Recognizer embedding the plain century loop over the full table. -/
def ruleAdCentury (s : List Char) : Option ℚ :=
  adCenturyLoop centuryPatternsList s

/-- Regex `([IVX]+)-([IVX]+)\s*century` with IGNORECASE (source line
683): century ranges such as `V-VI century AD`. -/
def centuryRangeRE : RE :=
  seqRE [ RE.grp 1 (RE.plusC isRomanCI), litChar '-'
        , RE.grp 2 (RE.plusC isRomanCI), RE.starC isPySpace, litCI "century" ]

/-- Recognizer for dashed century ranges (source lines 683-694): the
era test is the case-sensitive containment of `BC` in the whole
normalized string. -/
def ruleCenturyRange (s : List Char) : Option ℚ :=
  match reSearch centuryRangeRE s with
  | none => none
  | some cp =>
    match getGrp cp 1, getGrp cp 2 with
    | some r1, some r2 =>
      match centuryLookup r1, centuryLookup r2 with
      | some y1, some y2 =>
        if containsL "BC".data s then some (-((y1 : ℚ) + (y2 : ℚ)) / 2)
        else some (((y1 : ℚ) + (y2 : ℚ)) / 2)
      | _, _ => none
    | _, _ => none

/-- Regex `([IVX]+)\s*century\s*BC\s*-\s*([IVX]+)\s*century(?!\s*BC)`
with IGNORECASE (source line 697): a BC century to a CE century. -/
def complexCenturyRE : RE :=
  seqRE [ RE.grp 1 (RE.plusC isRomanCI), RE.starC isPySpace, litCI "century"
        , RE.starC isPySpace, litCI "BC", RE.starC isPySpace, litChar '-'
        , RE.starC isPySpace, RE.grp 2 (RE.plusC isRomanCI)
        , RE.starC isPySpace, litCI "century"
        , RE.nla (seqRE [ RE.starC isPySpace, litCI "BC" ]) ]

/-- Recognizer for mixed-era century ranges (source lines 697-704):
midpoint of the negated BC year and the CE year. -/
def ruleComplexCentury (s : List Char) : Option ℚ :=
  match reSearch complexCenturyRE s with
  | none => none
  | some cp =>
    match getGrp cp 1, getGrp cp 2 with
    | some r1, some r2 =>
      match centuryLookup r1, centuryLookup r2 with
      | some y1, some y2 => some ((-(y1 : ℚ) + (y2 : ℚ)) / 2)
      | _, _ => none
    | _, _ => none

/-- Regex `^(\d{4})-(\d{4})$` (source line 707): plain four-digit year
range. -/
def yearRangeRE : RE :=
  seqRE [ RE.grp 1 (RE.repC isDigitC 4 4), litChar '-'
        , RE.grp 2 (RE.repC isDigitC 4 4), RE.eos ]

/-- Recognizer for plain four-digit ranges (source lines 707-711):
midpoint. -/
def ruleYearRange (s : List Char) : Option ℚ :=
  match matchAt yearRangeRE s with
  | none => none
  | some cp =>
    match getGrp cp 1, getGrp cp 2 with
    | some a, some b => some (((digitsToNat a : ℚ) + (digitsToNat b : ℚ)) / 2)
    | _, _ => none

/-- Regex `^(\d{4})$` (source line 714): single four-digit year. -/
def yearMatchRE : RE :=
  seqRE [ RE.grp 1 (RE.repC isDigitC 4 4), RE.eos ]

/-- Recognizer for a bare four-digit year (source lines 714-716). -/
def ruleYearMatch (s : List Char) : Option ℚ :=
  match matchAt yearMatchRE s with
  | none => none
  | some cp =>
    match getGrp cp 1 with
    | some a => some ((digitsToNat a : ℚ))
    | none => none

/-- The cascade of `extract_year_from_date` in source order; the first
recognizer producing a value wins. -/
def rulesCascade : List (List Char → Option ℚ) :=
  [ ruleLoneRoman, ruleSingleRoman, ruleYearOnlyRange, ruleYearOnly
  , ruleEndRange, ruleQuarterCentury, ruleWrongFormat, ruleCenturySpaceRange
  , ruleEarlyTh, ruleEarlyArabic, ruleSlashRange, ruleComplexSlash
  , ruleOrAlternative, ruleYearG, ruleOrdinalRange, ruleBeginningOrdinal
  , ruleHalfOrdinal, ruleThousandRange, ruleThousand, ruleMillenniumSingle
  , ruleMillenniumRange, ruleDecadeRange, ruleDecade, rulePartOfCentury
  , ruleQuarterRange, ruleBcCentury, ruleAdCentury, ruleCenturyRange
  , ruleComplexCentury, ruleYearRange, ruleYearMatch ]

/-- First produced value of an ordered recognizer list. -/
def firstSome : List (List Char → Option ℚ) → List Char → Option ℚ
  | [], _ => none
  | r :: rest, s =>
    match r s with
    | some v => some v
    | none => firstSome rest s

/-- Cascade applied to an already stripped and normalized text. -/
def extractCore (s : List Char) : Option ℚ :=
  firstSome rulesCascade s

/-- Embedding of `extract_year_from_date` (source lines 142-718): a
null or empty input yields no year; otherwise the text is stripped,
Cyrillic look-alikes are mapped to Latin, and the recognizer cascade
runs. `none` on the input side models a missing or NaN field. -/
def extract_year_from_date (d : Option String) : Option ℚ :=
  match d with
  | none => none
  | some raw =>
    if raw = "" then none
    else extractCore (normalize_cyrillic_to_latin (pyStrip raw.data))

/-! ## Historical period table and classification

Embedding of `HISTORICAL_PERIODS` (source lines 11-114) and
`assign_period_category` (source lines 760-846). The Python function
first determines a numeric year, preferring the timeline column and
falling back to `extract_year_from_date` on the date column; the part
modelled here is the classification of that optional year, composed
with the date-column extraction. -/

/-- One entry of the period table; `stop` carries the value of the
Python key `end`, which is a reserved word here. -/
structure Period where
  name : String
  start : Int
  stop : Int
  label : String
deriving DecidableEq

/-- Apostrophe character, used inside two period names. -/
def apoC : Char := Char.ofNat 39

/-- Period name `Kievan Rus\x27 Period` from the source table. -/
def kievanRusName : String := "Kievan Rus" ++ String.singleton apoC ++ " Period"

/-- Period name and label `Ukraine\x27s First Independence` from the
source table. -/
def ukraineFirstName : String := "Ukraine" ++ String.singleton apoC ++ "s First Independence"

/-- The static `HISTORICAL_PERIODS` table (source lines 11-114), in
table order. Note that the label of the Kievan Rus entry drops the
apostrophe of its name. -/
def HISTORICAL_PERIODS : List Period :=
  [ ⟨"Paleolithic Period", -1400000, -10000, "Paleolithic Period"⟩
  , ⟨"Neolithic Period", -10000, -4500, "Neolithic Period"⟩
  , ⟨"Bronze Age", -4500, -1200, "Bronze Age"⟩
  , ⟨"Iron Age", -1200, -700, "Iron Age"⟩
  , ⟨"Scythian-Sarmatian Era", -700, 250, "Scythian-Sarmatian Era"⟩
  , ⟨"Greek and Roman Period", -250, 375, "Greek and Roman Period"⟩
  , ⟨"Migration Period", 370, 700, "Migration Period"⟩
  , ⟨"Early Medieval Period", 600, 900, "Early Medieval Period"⟩
  , ⟨kievanRusName, 839, 1240, "Kievan Rus Period"⟩
  , ⟨"Mongol Invasion and Domination", 1239, 1400, "Mongol Invasion and Domination"⟩
  , ⟨"Kingdom of Galicia-Volhynia", 1197, 1340, "Kingdom of Galicia-Volhynia"⟩
  , ⟨"Lithuanian and Polish Period", 1340, 1648, "Lithuanian and Polish Period"⟩
  , ⟨"Cossack Hetmanate Period", 1648, 1764, "Cossack Hetmanate Period"⟩
  , ⟨"Ukraine under the Russian Empire", 1764, 1917, "Ukraine under the Russian Empire"⟩
  , ⟨ukraineFirstName, 1917, 1921, ukraineFirstName⟩
  , ⟨"Soviet Period", 1921, 1991, "Soviet Period"⟩
  , ⟨"Independence Period", 1991, 2030, "Independence Period"⟩ ]

/-- Inclusive interval test `period['start'] <= year <= period['end']`
(source line 800). -/
def periodPred (year : ℚ) (p : Period) : Bool :=
  decide ((p.start : ℚ) ≤ year) && decide (year ≤ (p.stop : ℚ))

/-- All matching periods in table order (source lines 798-801); the
full table is traversed. -/
def matchingPeriods (year : ℚ) : List Period :=
  HISTORICAL_PERIODS.filter (periodPred year)

/-- The generator expression
`next(p['label'] for p in matching_periods if p['name'] == n)` (source
lines 822 and following); the callers guard it with a membership test,
so the default branch is unreachable there. -/
def labelOfName (l : List Period) (n : String) : String :=
  match l.find? (fun p => p.name == n) with
  | some p => p.label
  | none => "Unknown Period"

/-- Overlap arbitration (source lines 816-846): the fixed pairwise
priority rules over the names of the matching periods, falling back to
the first match in table order. -/
def arbitrateOverlap (year : ℚ) (first : Period) (matching : List Period) : String :=
  let names := matching.map Period.name
  if names.contains "Mongol Invasion and Domination"
      && names.contains "Kingdom of Galicia-Volhynia" then
    if year < 1300 then labelOfName matching "Mongol Invasion and Domination"
    else labelOfName matching "Kingdom of Galicia-Volhynia"
  else if names.contains kievanRusName
      && names.contains "Kingdom of Galicia-Volhynia" then
    labelOfName matching kievanRusName
  else if names.contains "Scythian-Sarmatian Era"
      && names.contains "Greek and Roman Period" then
    if 0 < year then labelOfName matching "Greek and Roman Period"
    else labelOfName matching "Scythian-Sarmatian Era"
  else if names.contains "Migration Period"
      && names.contains "Early Medieval Period" then
    if year < 650 then labelOfName matching "Migration Period"
    else labelOfName matching "Early Medieval Period"
  else first.label

/-- Classification of an optional resolved year (source lines
794-846): the Unknown marker for no year, the two out-of-table
fallback labels, the single match, or the arbitrated overlap. -/
def assign_period_from_year (year : Option ℚ) : String :=
  match year with
  | none => "Unknown Period"
  | some y =>
    match matchingPeriods y with
    | [] =>
      if y < -10000 then "Pre-Neolithic Period"
      else if 2030 < y then "Contemporary Period"
      else "Unknown Period"
    | p :: rest =>
      if rest.isEmpty then p.label
      else arbitrateOverlap y p (p :: rest)

/-- Embedding of `assign_period_category` on the date-column path: the
year extracted from the raw date string is classified. This is the
composition the row function performs when the timeline and normalized
columns are absent (source lines 779-780 into 794-846). -/
def assign_period_category (d : Option String) : String :=
  assign_period_from_year (extract_year_from_date d)

/-- The display labels of the static table, in table order. -/
def periodLabels : List String := HISTORICAL_PERIODS.map Period.label

/-- The closed set of labels the classifier can emit: the table labels
plus the Unknown marker and the two out-of-table fallbacks. -/
def closedLabelSet : List String :=
  periodLabels ++ ["Unknown Period", "Pre-Neolithic Period", "Contemporary Period"]

/-! ## Evaluation support

The Batteries rational operations are `irreducible` by default, which
blocks `decide` on concrete runs of the cascade; kernel checking is
unaffected by reducibility, so they are restored to `semireducible`
locally for the evaluations below. -/

attribute [local semireducible] Rat.add Rat.sub Rat.mul Rat.inv

/-- Input `1840-1850` written with an en dash (U+2013). -/
def enDashRange : String := "1840" ++ String.singleton enDash ++ "1850"

/-- Input `1840-1850` written with an em dash (U+2014). -/
def emDashRange : String := "1840" ++ String.singleton emDash ++ "1850"

/-- Input `1840-1850` written with a figure dash (U+2012). -/
def figDashRange : String := "1840" ++ String.singleton figDash ++ "1850"

/-! ## Claim theorems -/

/-- Claim C1. The spec asserts that every BCE-tagged input resolves to
a strictly negative year, naming the Roman centuries IX through XX with
a BC suffix. The code violates this: its BC-century loop matches the
pattern for every table numeral, but the return chain only covers I
through VIII, so `IX century BC` (and likewise X through XX) falls
through to the plain-century loop and comes back positive, while
`VIII century BC` still resolves negatively. -/
theorem claim1_bc_century_sign_bug :
    extract_year_from_date (some "IX century BC") = some 850
    ∧ extract_year_from_date (some "X century BC") = some 950
    ∧ extract_year_from_date (some "VIII century BC") = some (-750) :=
  ⟨by decide, by decide, by decide⟩

/-- Claim C3. Century notations resolve to the documented midpoint and
quarter offsets: `XIX century` to 1850, `first half of XIX century` to
1812, `second half of XIX century` to 1862, and `VI century BC` to
-550. -/
theorem claim3_century_offsets :
    extract_year_from_date (some "XIX century") = some 1850
    ∧ extract_year_from_date (some "first half of XIX century") = some 1812
    ∧ extract_year_from_date (some "second half of XIX century") = some 1862
    ∧ extract_year_from_date (some "VI century BC") = some (-550) :=
  ⟨by decide, by decide, by decide, by decide⟩

/-- Claim C4. The spec requires every century recognizer to decline an
unsupported Roman numeral such as XXX rather than guess. The lone and
singular-century recognizers do decline, but the dashless-centuries
rule matches `XXX centuries` by splitting the token into the supported
numerals XX and X and returns their midpoint 1450. -/
theorem claim4_unsupported_numeral_bug :
    extract_year_from_date (some "XXX centuries") = some 1450
    ∧ extract_year_from_date (some "XXX century") = none
    ∧ extract_year_from_date (some "XXX") = none :=
  ⟨by decide, by decide, by decide⟩

/-- Claim C5, counterexample. The claim states that a bare year of
magnitude 500 or more is not accepted without an explicit era suffix,
and names bare `1900` as an input that must produce no match; the final
fallback of the cascade accepts it. -/
theorem claim5_bare_year_counterexample :
    extract_year_from_date (some "1900") = some 1900 := by decide

/-- Claim C5 as amended. Bare years of one to three digits below 500
are extracted unchanged as CE years; bare three-digit years of 500 or
more produce no match; but a bare four-digit year is accepted unchanged
by the final fallback rule, and a bare digit range is accepted as its
midpoint regardless of magnitude. -/
theorem claim5_bare_year_amended :
    extract_year_from_date (some "81") = some 81
    ∧ extract_year_from_date (some "499") = some 499
    ∧ extract_year_from_date (some "500") = none
    ∧ extract_year_from_date (some "600") = none
    ∧ extract_year_from_date (some "1900") = some 1900
    ∧ extract_year_from_date (some "600-700") = some 650 :=
  ⟨by decide, by decide, by decide, by decide, by decide, by decide⟩

/-- Claim C6. A resolved year of 1250 falls exactly in the overlapping
Mongol Invasion (1239-1400) and Galicia-Volhynia (1197-1340) intervals;
the arbiter applies the fixed threshold 1300 and deterministically
returns the earlier-listed Mongol period below it and Galicia-Volhynia
from the threshold on, independent of table order. -/
theorem claim6_overlap_arbitration :
    assign_period_from_year (some 1250) = "Mongol Invasion and Domination"
    ∧ (matchingPeriods 1250).map Period.name =
        ["Mongol Invasion and Domination", "Kingdom of Galicia-Volhynia"]
    ∧ assign_period_from_year (some 1299) = "Mongol Invasion and Domination"
    ∧ assign_period_from_year (some 1300) = "Kingdom of Galicia-Volhynia" :=
  ⟨by decide, by decide, by decide, by decide⟩

/-- Claim C7. The estimate-resolver step shared by the range
recognizers maps an interval to its arithmetic midpoint with the era
sign preserved, a point estimate passes through unchanged, and the
input `1840-1850` resolves to 1845. -/
theorem claim7_midpoint_resolution :
    (∀ y1 y2 : ℚ, signedMidpoint y1 y2 false = (y1 + y2) / 2
      ∧ signedMidpoint y1 y2 true = -((y1 + y2) / 2))
    ∧ extract_year_from_date (some "1840-1850") = some 1845
    ∧ extract_year_from_date (some "425") = some 425 :=
  ⟨fun _ _ => ⟨rfl, rfl⟩, by decide, by decide⟩

/-- Claim C8. An absent input, the empty string, and any string that
strips to nothing all produce no extracted year and the label
`Unknown Period`. -/
theorem claim8_unknown_propagation :
    (extract_year_from_date none = none
      ∧ assign_period_category none = "Unknown Period")
    ∧ (∀ s : String, pyStrip s.data = [] →
        extract_year_from_date (some s) = none
        ∧ assign_period_category (some s) = "Unknown Period") := by
  refine ⟨⟨rfl, rfl⟩, ?_⟩
  intro s h
  have hx : extract_year_from_date (some s) = none := by
    by_cases hs : s = ""
    · subst hs; rfl
    · show (if s = "" then none
        else extractCore (normalize_cyrillic_to_latin (pyStrip s.data))) = none
      rw [if_neg hs, h]
      rfl
  refine ⟨hx, ?_⟩
  show assign_period_from_year (extract_year_from_date (some s)) = "Unknown Period"
  rw [hx]
  rfl


/-- Witness for claim C8 at the three-space input. -/
theorem claim8_unknown_propagation_witness :
    pyStrip "   ".data = []
    ∧ extract_year_from_date (some "   ") = none
    ∧ assign_period_category (some "   ") = "Unknown Period" :=
  ⟨by decide, (claim8_unknown_propagation.2 "   " (by decide)).1,
    (claim8_unknown_propagation.2 "   " (by decide)).2⟩

/-- Claim C9, counterexample. The claim asserts a dash-normalization
step making an em dash range extract like a hyphen range; in the code
the em dash appears in no substitution table and no recognizer class,
so the em dash variant of `1840-1850` produces no match while the
hyphen variant resolves to 1845. -/
theorem claim9_dash_counterexample :
    extract_year_from_date (some emDashRange) = none
    ∧ extract_year_from_date (some ("1840" ++ "-1850")) = some 1845
    ∧ extract_year_from_date (some emDashRange)
        ≠ extract_year_from_date (some ("1840" ++ "-1850")) :=
  ⟨by decide, by decide, by decide⟩

/-- Claim C9 as amended. The lexical normalizer maps only Cyrillic
look-alike characters and leaves dashes untouched; dash variants are
instead handled per recognizer, the bare range rule accepting hyphen
and en dash and the slash-range rule additionally figure dash and
slash, while an em dash range matches no rule at all. -/
theorem claim9_dash_handling_amended :
    normalize_cyrillic_to_latin emDashRange.data = emDashRange.data
    ∧ extract_year_from_date (some enDashRange) = some 1845
    ∧ extract_year_from_date (some figDashRange) = some 1845
    ∧ extract_year_from_date (some emDashRange) = none :=
  ⟨by decide, by decide, by decide, by decide⟩

/-! ## Classification lemmas shared by the label-set and coverage
claims -/

/-- A matching period is a table entry. -/
theorem matching_subset {y : ℚ} {p : Period} (h : p ∈ matchingPeriods y) :
    p ∈ HISTORICAL_PERIODS := (List.mem_filter.mp h).1

/-- The label of a table entry is a table label. -/
theorem mem_table_label {p : Period} (h : p ∈ HISTORICAL_PERIODS) :
    p.label ∈ periodLabels := List.mem_map_of_mem Period.label h

/-- The Unknown marker is not a table label. -/
theorem unknown_not_label : "Unknown Period" ∉ periodLabels := by decide

/-- Table labels sit inside the closed label set. -/
theorem labels_sub_closed {x : String} (h : x ∈ periodLabels) :
    x ∈ closedLabelSet := List.mem_append_left _ h

/-- When the requested name occurs among the matching periods, the
generator-expression lookup returns the label of a table entry. -/
theorem labelOfName_mem_labels {l : List Period} {n : String}
    (hsub : ∀ q ∈ l, q ∈ HISTORICAL_PERIODS)
    (h : (l.map Period.name).contains n = true) :
    labelOfName l n ∈ periodLabels := by
  have hn : n ∈ l.map Period.name := List.elem_iff.mp h
  obtain ⟨q, hq, hqn⟩ := List.mem_map.mp hn
  have hs : (l.find? (fun p => p.name == n)).isSome :=
    List.find?_isSome.mpr ⟨q, hq, by simp [hqn]⟩
  obtain ⟨q2, hf⟩ := Option.isSome_iff_exists.mp hs
  unfold labelOfName
  rw [hf]
  exact mem_table_label (hsub q2 (List.mem_of_find?_eq_some hf))

/-- Every arbitration outcome over table entries is a table label. -/
theorem arbitrate_mem_labels (y : ℚ) (p : Period) (l : List Period)
    (hp : p ∈ HISTORICAL_PERIODS) (hsub : ∀ q ∈ l, q ∈ HISTORICAL_PERIODS) :
    arbitrateOverlap y p l ∈ periodLabels := by
  simp only [arbitrateOverlap]
  split_ifs with hmk hy1 hkg hsg hy2 hme hy3
  · exact labelOfName_mem_labels hsub (by rw [Bool.and_eq_true] at hmk; exact hmk.1)
  · exact labelOfName_mem_labels hsub (by rw [Bool.and_eq_true] at hmk; exact hmk.2)
  · exact labelOfName_mem_labels hsub (by rw [Bool.and_eq_true] at hkg; exact hkg.1)
  · exact labelOfName_mem_labels hsub (by rw [Bool.and_eq_true] at hsg; exact hsg.2)
  · exact labelOfName_mem_labels hsub (by rw [Bool.and_eq_true] at hsg; exact hsg.1)
  · exact labelOfName_mem_labels hsub (by rw [Bool.and_eq_true] at hme; exact hme.1)
  · exact labelOfName_mem_labels hsub (by rw [Bool.and_eq_true] at hme; exact hme.2)
  · exact mem_table_label hp

/-- Unfolding equation of `assign_period_from_year` on a present
year. -/
theorem assign_some_eq (y : ℚ) :
    assign_period_from_year (some y) =
      match matchingPeriods y with
      | [] =>
        if y < -10000 then "Pre-Neolithic Period"
        else if 2030 < y then "Contemporary Period"
        else "Unknown Period"
      | p :: rest =>
        if rest.isEmpty then p.label else arbitrateOverlap y p (p :: rest) := rfl

/-- Classification of any numeric year lands in the closed label
set. -/
theorem assign_some_mem_closed (y : ℚ) :
    assign_period_from_year (some y) ∈ closedLabelSet := by
  rw [assign_some_eq]
  cases hm : matchingPeriods y with
  | nil =>
    dsimp only
    split_ifs <;> decide
  | cons p rest =>
    have hp : p ∈ HISTORICAL_PERIODS := by
      apply matching_subset (y := y)
      rw [hm]
      exact List.mem_cons_self p rest
    have hsub : ∀ q ∈ p :: rest, q ∈ HISTORICAL_PERIODS := by
      intro q hq
      apply matching_subset (y := y)
      rw [hm]
      exact hq
    show (if rest.isEmpty then p.label else arbitrateOverlap y p (p :: rest))
        ∈ closedLabelSet
    split_ifs
    · exact labels_sub_closed (mem_table_label hp)
    · exact labels_sub_closed (arbitrate_mem_labels y p (p :: rest) hp hsub)

/-- Claim C2. Extraction is a total function into an optional year, and
classification of its result always lands in the closed label set: the
seventeen table labels plus `Unknown Period`, `Pre-Neolithic Period`
and `Contemporary Period`. -/
theorem claim2_closed_label_set :
    ∀ d : Option String, assign_period_category d ∈ closedLabelSet := by
  intro d
  unfold assign_period_category
  cases extract_year_from_date d with
  | none => decide
  | some y => exact assign_some_mem_closed y

/-- Every year between the table extremes matches at least one table
entry: scanning the ordered intervals, each successive start lies at or
below the previous end, so the table has no gap. -/
theorem table_covers (y : ℚ) (h1 : (-1400000 : ℚ) ≤ y) (h2 : y ≤ 2030) :
    ∃ p ∈ HISTORICAL_PERIODS, periodPred y p = true := by
  by_cases c1 : y ≤ (-10000 : ℚ)
  · refine ⟨⟨"Paleolithic Period", -1400000, -10000, "Paleolithic Period"⟩, by decide, ?_⟩
    simp only [periodPred, Bool.and_eq_true, decide_eq_true_eq]
    constructor <;> push_cast <;> linarith
  push_neg at c1
  by_cases c2 : y ≤ (-4500 : ℚ)
  · refine ⟨⟨"Neolithic Period", -10000, -4500, "Neolithic Period"⟩, by decide, ?_⟩
    simp only [periodPred, Bool.and_eq_true, decide_eq_true_eq]
    constructor <;> push_cast <;> linarith
  push_neg at c2
  by_cases c3 : y ≤ (-1200 : ℚ)
  · refine ⟨⟨"Bronze Age", -4500, -1200, "Bronze Age"⟩, by decide, ?_⟩
    simp only [periodPred, Bool.and_eq_true, decide_eq_true_eq]
    constructor <;> push_cast <;> linarith
  push_neg at c3
  by_cases c4 : y ≤ (-700 : ℚ)
  · refine ⟨⟨"Iron Age", -1200, -700, "Iron Age"⟩, by decide, ?_⟩
    simp only [periodPred, Bool.and_eq_true, decide_eq_true_eq]
    constructor <;> push_cast <;> linarith
  push_neg at c4
  by_cases c5 : y ≤ (250 : ℚ)
  · refine ⟨⟨"Scythian-Sarmatian Era", -700, 250, "Scythian-Sarmatian Era"⟩, by decide, ?_⟩
    simp only [periodPred, Bool.and_eq_true, decide_eq_true_eq]
    constructor <;> push_cast <;> linarith
  push_neg at c5
  by_cases c6 : y ≤ (375 : ℚ)
  · refine ⟨⟨"Greek and Roman Period", -250, 375, "Greek and Roman Period"⟩, by decide, ?_⟩
    simp only [periodPred, Bool.and_eq_true, decide_eq_true_eq]
    constructor <;> push_cast <;> linarith
  push_neg at c6
  by_cases c7 : y ≤ (700 : ℚ)
  · refine ⟨⟨"Migration Period", 370, 700, "Migration Period"⟩, by decide, ?_⟩
    simp only [periodPred, Bool.and_eq_true, decide_eq_true_eq]
    constructor <;> push_cast <;> linarith
  push_neg at c7
  by_cases c8 : y ≤ (900 : ℚ)
  · refine ⟨⟨"Early Medieval Period", 600, 900, "Early Medieval Period"⟩, by decide, ?_⟩
    simp only [periodPred, Bool.and_eq_true, decide_eq_true_eq]
    constructor <;> push_cast <;> linarith
  push_neg at c8
  by_cases c9 : y ≤ (1240 : ℚ)
  · refine ⟨⟨kievanRusName, 839, 1240, "Kievan Rus Period"⟩, by decide, ?_⟩
    simp only [periodPred, Bool.and_eq_true, decide_eq_true_eq]
    constructor <;> push_cast <;> linarith
  push_neg at c9
  by_cases c10 : y ≤ (1400 : ℚ)
  · refine ⟨⟨"Mongol Invasion and Domination", 1239, 1400, "Mongol Invasion and Domination"⟩, by decide, ?_⟩
    simp only [periodPred, Bool.and_eq_true, decide_eq_true_eq]
    constructor <;> push_cast <;> linarith
  push_neg at c10
  by_cases c11 : y ≤ (1648 : ℚ)
  · refine ⟨⟨"Lithuanian and Polish Period", 1340, 1648, "Lithuanian and Polish Period"⟩, by decide, ?_⟩
    simp only [periodPred, Bool.and_eq_true, decide_eq_true_eq]
    constructor <;> push_cast <;> linarith
  push_neg at c11
  by_cases c12 : y ≤ (1764 : ℚ)
  · refine ⟨⟨"Cossack Hetmanate Period", 1648, 1764, "Cossack Hetmanate Period"⟩, by decide, ?_⟩
    simp only [periodPred, Bool.and_eq_true, decide_eq_true_eq]
    constructor <;> push_cast <;> linarith
  push_neg at c12
  by_cases c13 : y ≤ (1917 : ℚ)
  · refine ⟨⟨"Ukraine under the Russian Empire", 1764, 1917, "Ukraine under the Russian Empire"⟩, by decide, ?_⟩
    simp only [periodPred, Bool.and_eq_true, decide_eq_true_eq]
    constructor <;> push_cast <;> linarith
  push_neg at c13
  by_cases c14 : y ≤ (1921 : ℚ)
  · refine ⟨⟨ukraineFirstName, 1917, 1921, ukraineFirstName⟩, by decide, ?_⟩
    simp only [periodPred, Bool.and_eq_true, decide_eq_true_eq]
    constructor <;> push_cast <;> linarith
  push_neg at c14
  by_cases c15 : y ≤ (1991 : ℚ)
  · refine ⟨⟨"Soviet Period", 1921, 1991, "Soviet Period"⟩, by decide, ?_⟩
    simp only [periodPred, Bool.and_eq_true, decide_eq_true_eq]
    constructor <;> push_cast <;> linarith
  push_neg at c15
  refine ⟨⟨"Independence Period", 1991, 2030, "Independence Period"⟩, by decide, ?_⟩
  simp only [periodPred, Bool.and_eq_true, decide_eq_true_eq]
  constructor <;> push_cast <;> linarith

/-- Below the table span no entry matches. -/
theorem matching_nil_below (y : ℚ) (h : y < -1400000) : matchingPeriods y = [] := by
  unfold matchingPeriods
  rw [List.filter_eq_nil_iff]
  intro p hp
  simp only [HISTORICAL_PERIODS] at hp
  fin_cases hp <;>
  · simp only [periodPred, Bool.and_eq_true, decide_eq_true_eq, not_and]
    intro ha hb
    push_cast at ha hb
    linarith

/-- Above the table span no entry matches. -/
theorem matching_nil_above (y : ℚ) (h : 2030 < y) : matchingPeriods y = [] := by
  unfold matchingPeriods
  rw [List.filter_eq_nil_iff]
  intro p hp
  simp only [HISTORICAL_PERIODS] at hp
  fin_cases hp <;>
  · simp only [periodPred, Bool.and_eq_true, decide_eq_true_eq, not_and]
    intro ha hb
    push_cast at ha hb
    linarith

/-- A year below the table span classifies as Pre-Neolithic. -/
theorem assign_below (y : ℚ) (h : y < -1400000) :
    assign_period_from_year (some y) = "Pre-Neolithic Period" := by
  rw [assign_some_eq, matching_nil_below y h]
  dsimp only
  rw [if_pos (by linarith : y < (-10000 : ℚ))]

/-- A year above the table span classifies as Contemporary. -/
theorem assign_above (y : ℚ) (h : 2030 < y) :
    assign_period_from_year (some y) = "Contemporary Period" := by
  rw [assign_some_eq, matching_nil_above y h]
  dsimp only
  rw [if_neg (by linarith : ¬y < (-10000 : ℚ)), if_pos h]

/-- A year inside the table span classifies to a table label. -/
theorem assign_inrange (y : ℚ) (h1 : (-1400000 : ℚ) ≤ y) (h2 : y ≤ 2030) :
    assign_period_from_year (some y) ∈ periodLabels := by
  obtain ⟨q, hq, hpred⟩ := table_covers y h1 h2
  have hne : matchingPeriods y ≠ [] := by
    intro hnil
    unfold matchingPeriods at hnil
    exact (List.filter_eq_nil_iff.mp hnil q hq) hpred
  obtain ⟨p, rest, hm⟩ := List.exists_cons_of_ne_nil hne
  have hp : p ∈ HISTORICAL_PERIODS := by
    apply matching_subset (y := y)
    rw [hm]
    exact List.mem_cons_self p rest
  have hsub : ∀ q2 ∈ p :: rest, q2 ∈ HISTORICAL_PERIODS := by
    intro q2 hq2
    apply matching_subset (y := y)
    rw [hm]
    exact hq2
  rw [assign_some_eq, hm]
  dsimp only
  split_ifs
  · exact mem_table_label hp
  · exact arbitrate_mem_labels y p (p :: rest) hp hsub

/-- Claim C10. The static table covers every year from -1400000
through 2030 without a gap, so once a numeric year exists the
classifier never answers `Unknown Period`: years inside the span get a
table label, years below it Pre-Neolithic, years above it Contemporary,
and `Unknown Period` is produced exactly by the no-year case. -/
theorem claim10_full_coverage :
    assign_period_from_year none = "Unknown Period"
    ∧ ∀ y : ℚ,
        ((-1400000 : ℚ) ≤ y → y ≤ 2030 →
          assign_period_from_year (some y) ∈ periodLabels)
        ∧ (y < -1400000 → assign_period_from_year (some y) = "Pre-Neolithic Period")
        ∧ (2030 < y → assign_period_from_year (some y) = "Contemporary Period")
        ∧ assign_period_from_year (some y) ≠ "Unknown Period" := by
  refine ⟨rfl, fun y => ⟨assign_inrange y, assign_below y, assign_above y, ?_⟩⟩
  rcases lt_or_le y (-1400000 : ℚ) with hlt | hge
  · rw [assign_below y hlt]
    decide
  · rcases le_or_lt y 2030 with hle | hgt
    · have hmem := assign_inrange y hge hle
      intro hEq
      rw [hEq] at hmem
      exact unknown_not_label hmem
    · rw [assign_above y hgt]
      decide

/-- Witness for claim C10 at the years 1250, -2000000 and 2031. -/
theorem claim10_full_coverage_witness :
    assign_period_from_year (some 1250) ∈ periodLabels
    ∧ assign_period_from_year (some (-2000000 : ℚ)) = "Pre-Neolithic Period"
    ∧ assign_period_from_year (some 2031) = "Contemporary Period" :=
  ⟨(claim10_full_coverage.2 1250).1 (by norm_num) (by norm_num),
    (claim10_full_coverage.2 (-2000000)).2.1 (by norm_num),
    (claim10_full_coverage.2 2031).2.2.1 (by norm_num)⟩
